import Mathlib

/-!
Verification of `src/samplers/_rejection_sampler.py` (the `samplers` package).

Modelling conventions.

Real-valued quantities are modelled as rationals (`ℚ`): every arithmetic
operation performed by the code on the inputs reasoned about here
(addition, multiplication, division, `<=` comparison) is exact.

Python's dynamic typing at the public boundary is modelled by the tagged
type `PyVal`; the `isinstance` checks of the source are the corresponding
boolean discriminators, with `bool` counting as `int` because Python's
`bool` subclasses `int`.

Python exceptions are modelled by `PyErr`; a call that raises returns an
`err` outcome instead of a value.

The process-wide pseudorandom generator shared by `g.sample()` and
`uniform().rvs()` is modelled as a stream `us : ℕ → ℚ` of uniform draws.
Loop iteration `k` consumes draw `2*k` for `g.sample()` (a sampling
function is modelled as a transform applied to the generator's next
uniform draw) and draw `2*k+1` for `uniform().rvs()`.

The `while` loop of `rejection_sampler` is embedded as the fuel-indexed
recursion `sampleLoopFuel`; `rejection_sampler` runs it with
`budgetFuel M N` fuel, and the theorems below prove that this fuel is
never exhausted (the `fuelOut` outcome is unreachable), which is the
termination of the source loop under its `k > M * M * N` budget check.
-/

namespace Samplers

/-- Python exception classes raised by the module: `TypeError` and
`ValueError` with their messages, and `ZeroDivisionError` from the
unguarded division in the `proposal` helper. -/
inductive PyErr where
  | typeError (msg : String)
  | valueError (msg : String)
  | zeroDivisionError
deriving DecidableEq

/-- Instance state of class `ProposalDistribution` (lines 15-29): the two
instance attributes written by `__init__`, each holding either `None`
(modelled `Option.none`) or a callable.  A sampling callable is modelled
as a transform of the generator's next uniform draw; a density callable
as a function from the evaluation point to the density value. -/
structure ProposalDistribution where
  sample : Option (ℚ → ℚ)
  density : Option (ℚ → ℚ)

/-- `ProposalDistribution.__init__(self, sampler=None, density=None)`:
stores the two arguments (each `None` when omitted, as in
`ProposalDistribution()`) into `self.sample` and `self.density`. -/
def ProposalDistribution.init (sampler density : Option (ℚ → ℚ)) : ProposalDistribution :=
  ⟨sampler, density⟩

/-- Attribute names defined in the class body of `ProposalDistribution`:
the `from_scipy` method and the two method definitions named `sample` and
`density`. -/
def classAttrs : List String := ["sample", "density", "from_scipy"]

/-- Attribute names that `__init__` writes into every instance's
`__dict__`: every instance carries instance attributes `sample` and
`density` from the moment it is constructed. -/
def instanceAttrs : List String := ["sample", "density"]

/-- Where Python attribute lookup on a `ProposalDistribution` instance
finds a name. -/
inductive AttrSource where
  | fromInstance
  | fromClass
deriving DecidableEq

/-- Python attribute lookup on a `ProposalDistribution` instance: the
instance `__dict__` is consulted before the class body, so an instance
attribute shadows the class-level method of the same name. -/
def attributeSource (nm : String) : AttrSource :=
  if nm ∈ instanceAttrs then AttrSource.fromInstance else AttrSource.fromClass

/-- Calling the value held by an attribute: `None` is not callable, so the
call raises `TypeError`; a stored callable is applied. -/
def callAttr (v : Option (ℚ → ℚ)) (x : ℚ) : Except PyErr ℚ :=
  match v with
  | Option.none => Except.error (PyErr.typeError "NoneType object is not callable")
  | Option.some fn => Except.ok (fn x)

/-- A scipy continuous-distribution family (`scipy.stats.rv_continuous`).
Calling the family with positional loc/scale parameters freezes it:
`rvsAt loc scale` maps the generator's next uniform draw to a variate of
the frozen distribution, and `pdfAt loc scale` is its density.  scipy's
omitted-parameter defaults (`loc=0, scale=1`) are recorded as
`defaultLoc` and `defaultScale`. -/
structure ScipyFamily where
  defaultLoc : ℚ
  defaultScale : ℚ
  rvsAt : ℚ → ℚ → ℚ → ℚ
  pdfAt : ℚ → ℚ → ℚ → ℚ

/-- A frozen scipy distribution: the object returned by calling a family,
carrying its `rvs` and `pdf` bound methods. -/
structure FrozenDist where
  rvs : ℚ → ℚ
  pdf : ℚ → ℚ

/-- `scipy_distribution(*args)`: freeze the family at the given positional
loc/scale arguments, falling back to the family defaults for omitted
arguments; in particular `fam.call []` is the family frozen at its
default parameters. -/
def ScipyFamily.call (fam : ScipyFamily) (args : List ℚ) : FrozenDist :=
  ⟨fam.rvsAt (args.headD fam.defaultLoc) ((args.drop 1).headD fam.defaultScale),
   fam.pdfAt (args.headD fam.defaultLoc) ((args.drop 1).headD fam.defaultScale)⟩

/-- `ProposalDistribution.from_scipy(self, scipy_distribution, *args)`
(lines 19-23): rebinds `self.sample` to the frozen distribution's `rvs`
and `self.density` to its `pdf`, and returns the instance itself
(modelled: the returned value is the updated instance). -/
def ProposalDistribution.from_scipy (self : ProposalDistribution) (fam : ScipyFamily)
    (args : List ℚ) : ProposalDistribution :=
  { self with
      sample := Option.some (fam.call args).rvs
      density := Option.some (fam.call args).pdf }

/-- Python values that can appear at the `rejection_sampler` call
boundary, tagged by their runtime type.  `bool` is kept distinct from
`int` (but `isinstance (-, int)` holds of it); `pyFunction` is a
`types.FunctionType` object (a `def` or `lambda`); `builtin` is any other
callable object (builtin function, bound method, callable instance). -/
inductive PyVal where
  | int (n : ℤ)
  | bool (b : Bool)
  | float (q : ℚ)
  | str (s : String)
  | pyFunction (fn : ℚ → ℚ)
  | builtin (fn : ℚ → ℚ)
  | propDist (pd : ProposalDistribution)
  | rvCont (fam : ScipyFamily)

/-- `isinstance(v, types.FunctionType)`: true exactly for plain Python
functions (`def` / `lambda`). -/
def isFunctionType : PyVal → Bool
  | PyVal.pyFunction _ => true
  | _ => false

/-- `callable(v)`: plain functions, builtin-style callables, and scipy
families (calling a family freezes it) are callable. -/
def isCallable : PyVal → Bool
  | PyVal.pyFunction _ => true
  | PyVal.builtin _ => true
  | PyVal.rvCont _ => true
  | _ => false

/-- `isinstance(v, ProposalDistribution)`. -/
def isProposalDistribution : PyVal → Bool
  | PyVal.propDist _ => true
  | _ => false

/-- `isinstance(v, rv_continuous)`. -/
def isRvContinuous : PyVal → Bool
  | PyVal.rvCont _ => true
  | _ => false

/-- `isinstance(v, int)`: true on `bool` values as well, because Python's
`bool` is a subclass of `int`. -/
def isinstanceInt : PyVal → Bool
  | PyVal.int _ => true
  | PyVal.bool _ => true
  | _ => false

/-- `isinstance(v, float)`. -/
def isinstanceFloat : PyVal → Bool
  | PyVal.float _ => true
  | _ => false

/-- Numeric value of an `int`, `bool` or `float` (`True == 1`,
`False == 0`), as used by the comparisons `M <= 0` and `N <= 0` and by
the arithmetic of the loop. -/
def numValue : PyVal → ℚ
  | PyVal.int n => (n : ℚ)
  | PyVal.bool b => if b then 1 else 0
  | PyVal.float q => q
  | _ => 0

/-- Integer value of an `int` or `bool`, as used for the sample count. -/
def intValue : PyVal → ℤ
  | PyVal.int n => n
  | PyVal.bool b => if b then 1 else 0
  | _ => 0

/-- Lines 64-70 of the source: the `isinstance(g, Union[...])` check
followed by `g = ProposalDistribution().from_scipy(g)` for scipy
families.  Returns the proposal the loop will use, or `Option.none` when
`g` is neither a `ProposalDistribution` nor an `rv_continuous`.  Note the
adaptation passes no distribution parameters: `from_scipy` is called with
an empty argument list. -/
def adaptG : PyVal → Option ProposalDistribution
  | PyVal.propDist pd => Option.some pd
  | PyVal.rvCont fam =>
      Option.some ((ProposalDistribution.init Option.none Option.none).from_scipy fam [])
  | _ => Option.none

/-- The helper `proposal(x)` defined inside `rejection_sampler`
(lines 93-95): `f(x) / (M * g.density(x))`.  Looking up and calling
`g.density` can raise (`None` attribute), and a zero scaled density makes
the division raise `ZeroDivisionError`; nothing in the source guards
either failure. -/
def proposal (fFn : ℚ → ℚ) (pd : ProposalDistribution) (M : ℚ) (x : ℚ) : Except PyErr ℚ :=
  match callAttr pd.density x with
  | Except.error e => Except.error e
  | Except.ok dx =>
      if M * dx = 0 then Except.error PyErr.zeroDivisionError
      else Except.ok (fFn x / (M * dx))

/-- Outcome of a `rejection_sampler` call.  `ok samples k completed`
returns the list of accepted samples (the filled prefix of the numpy
buffer; when `completed = true` it is the whole length-`N` buffer), the
final iteration counter `k`, and whether all `N` acceptances happened
(`completed = false` is the early budget exit, whose unfilled buffer tail
is unspecified in the source).  `err e` is a raised exception.  `fuelOut`
is an artefact of the fuel-indexed embedding of the `while` loop, proved
unreachable when the loop is run with `budgetFuel` fuel. -/
inductive LoopOut where
  | ok (samples : List ℚ) (k : ℕ) (completed : Bool)
  | err (e : PyErr)
  | fuelOut
deriving DecidableEq

/-- The `while n < N` loop of `rejection_sampler` (lines 100-115), as a
fuel-indexed recursion.  Each loop entry: if `n < N` fails, return the
accepted samples as complete; otherwise check the budget `k > M * M * N`
and exit early (without raising) when exceeded; otherwise increment `k`,
draw `x = g.sample()` (draw `2*k` of the shared generator) and
`u = uniform().rvs()` (draw `2*k+1`), compute the acceptance ratio via
`proposal`, and accept `x` exactly when `u <= proposal(x)`. -/
def sampleLoopFuel (fFn : ℚ → ℚ) (pd : ProposalDistribution) (M : ℚ) (N : ℕ)
    (us : ℕ → ℚ) : ℕ → ℕ → ℕ → List ℚ → LoopOut
  | 0, _, _, _ => LoopOut.fuelOut
  | fuel + 1, n, k, acc =>
    if n < N then
      if (k : ℚ) > M * M * (N : ℚ) then LoopOut.ok acc k false
      else
        match callAttr pd.sample (us (2 * k)) with
        | Except.error e => LoopOut.err e
        | Except.ok x =>
          match proposal fFn pd M x with
          | Except.error e => LoopOut.err e
          | Except.ok r =>
            if us (2 * k + 1) ≤ r then
              sampleLoopFuel fFn pd M N us fuel (n + 1) (k + 1) (acc ++ [x])
            else
              sampleLoopFuel fFn pd M N us fuel n (k + 1) acc
    else LoopOut.ok acc k true

/-- Fuel sufficient for the loop's budget check to fire: the iteration
counter `k` starts at 0 and increases by one per loop entry, and the
entry with `k = ⌊M * M * N⌋ + 1` necessarily exits, so
`⌊M * M * N⌋ + 2` loop entries always suffice. -/
def budgetFuel (M : ℚ) (N : ℕ) : ℕ := (⌊M * M * (N : ℚ)⌋).toNat + 2

/-- `rejection_sampler(f, g, M, N)` (lines 44-115): validate `f` (must be
a `types.FunctionType`), validate and adapt `g`, validate `M` (numeric,
positive) and `N` (integer, positive) in the source's order, then run the
accept/reject loop with the budget-derived fuel. -/
def rejection_sampler (f g M N : PyVal) (us : ℕ → ℚ) : LoopOut :=
  match f with
  | PyVal.pyFunction fFn =>
    match adaptG g with
    | Option.none =>
        LoopOut.err (PyErr.typeError
          "g must be a continuous scipy distribution or a .ProposalDistribution")
    | Option.some pd =>
      if isinstanceInt M || isinstanceFloat M then
        if numValue M ≤ 0 then LoopOut.err (PyErr.valueError "M must be positive")
        else
          if isinstanceInt N then
            if numValue N ≤ 0 then LoopOut.err (PyErr.valueError "N must be positive")
            else
              sampleLoopFuel fFn pd (numValue M) (intValue N).toNat us
                (budgetFuel (numValue M) (intValue N).toNat) 0 0 []
          else LoopOut.err (PyErr.typeError "N must be an integer")
      else
        LoopOut.err (PyErr.typeError "M must be an integer or float to scale samples from g by")
  | _ => LoopOut.err (PyErr.typeError "f must be a function")

/-- A value accepted by the loop: it is the image of some shared-generator
draw under the sampling function, and it passed the `u <= f(x) / (M * g.density(x))`
test against the uniform draw of the same iteration (with a nonzero
scaled density, otherwise the iteration would have raised). -/
def AcceptedFrom (sFn dFn fFn : ℚ → ℚ) (M : ℚ) (us : ℕ → ℚ) (v : ℚ) : Prop :=
  ∃ t, v = sFn (us (2 * t)) ∧ M * dFn v ≠ 0 ∧ us (2 * t + 1) ≤ fFn v / (M * dFn v)

/-- The length-`N` numpy array the call actually returns.  `empty(N)`
(line 85) allocates a buffer whose initial contents are whatever was in
the allocated memory, modelled as the explicit input `mem : ℕ → ℚ`;
accepted samples overwrite the prefix in order, and positions never
written keep their uninitialized contents.  On a completed run the whole
buffer is overwritten; on the budget early exit the tail still holds
`mem`. -/
def returnedBuffer (N : ℕ) (mem : ℕ → ℚ) (samples : List ℚ) : List ℚ :=
  (List.range N).map (fun i => samples.getD i (mem i))

/-- `rejection_sampler` with the returned numpy buffer modelled in full:
the outcome of the call where a normal return carries the entire
length-`N` array (accepted prefix plus, on the early exit, the
uninitialized tail of the `empty(N)` allocation), not just the filled
prefix.  `mem` is the initial contents of the allocated buffer. -/
def rejection_sampler_array (f g M N : PyVal) (us mem : ℕ → ℚ) : LoopOut :=
  match rejection_sampler f g M N us with
  | LoopOut.ok samples k c =>
      LoopOut.ok (returnedBuffer (intValue N).toNat mem samples) k c
  | other => other

theorem callAttr_error_msg (v : Option (ℚ → ℚ)) (x : ℚ) (e : PyErr)
    (h : callAttr v x = Except.error e) :
    e = PyErr.typeError "NoneType object is not callable" := by
  cases v with
  | none =>
    simp only [callAttr, Except.error.injEq] at h
    exact h.symm
  | some fn => simp [callAttr] at h

theorem proposal_error_cases (fFn : ℚ → ℚ) (pd : ProposalDistribution) (M x : ℚ) (e : PyErr)
    (h : proposal fFn pd M x = Except.error e) :
    e = PyErr.typeError "NoneType object is not callable" ∨ e = PyErr.zeroDivisionError := by
  unfold proposal at h
  cases hc : callAttr pd.density x with
  | error e2 =>
    rw [hc] at h
    simp only [Except.error.injEq] at h
    subst h
    exact Or.inl (callAttr_error_msg _ _ _ hc)
  | ok dx =>
    rw [hc] at h
    dsimp only at h
    by_cases hz : M * dx = 0
    · rw [if_pos hz] at h
      simp only [Except.error.injEq] at h
      exact Or.inr h.symm
    · rw [if_neg hz] at h
      simp at h

/-- Every exception escaping the loop itself is either the `TypeError`
from calling a `None` attribute or the `ZeroDivisionError` from a zero
scaled density; in particular none of the argument-validation errors can
originate inside the loop. -/
theorem sampleLoopFuel_err_cases (fFn : ℚ → ℚ) (pd : ProposalDistribution) (M : ℚ) (N : ℕ)
    (us : ℕ → ℚ) :
    ∀ fuel n k acc e, sampleLoopFuel fFn pd M N us fuel n k acc = LoopOut.err e →
      e = PyErr.typeError "NoneType object is not callable" ∨ e = PyErr.zeroDivisionError := by
  intro fuel
  induction fuel with
  | zero => intro n k acc e h; simp [sampleLoopFuel] at h
  | succ fuel ih =>
    intro n k acc e h
    simp only [sampleLoopFuel] at h
    by_cases hn : n < N
    · rw [if_pos hn] at h
      by_cases hk : (k : ℚ) > M * M * (N : ℚ)
      · rw [if_pos hk] at h; simp at h
      · rw [if_neg hk] at h
        cases hs : callAttr pd.sample (us (2 * k)) with
        | error e2 =>
          rw [hs] at h
          dsimp only at h
          simp only [LoopOut.err.injEq] at h
          subst h
          exact Or.inl (callAttr_error_msg _ _ _ hs)
        | ok x =>
          rw [hs] at h
          dsimp only at h
          cases hp : proposal fFn pd M x with
          | error e2 =>
            rw [hp] at h
            dsimp only at h
            simp only [LoopOut.err.injEq] at h
            subst h
            exact proposal_error_cases _ _ _ _ _ hp
          | ok r =>
            rw [hp] at h
            dsimp only at h
            by_cases hu : us (2 * k + 1) ≤ r
            · rw [if_pos hu] at h; exact ih _ _ _ _ h
            · rw [if_neg hu] at h; exact ih _ _ _ _ h
    · rw [if_neg hn] at h; simp at h

/-- The fuel `budgetFuel M N` is never exhausted: starting the loop with
iteration counter `k` and at least `budgetFuel M N - k` fuel, the loop
always reaches one of its own exits (`n = N`, the `k > M * M * N` budget
break, or a raised exception) before the fuel runs out.  This is the
termination of the source's `while` loop. -/
theorem sampleLoopFuel_ne_fuelOut (fFn : ℚ → ℚ) (pd : ProposalDistribution) (M : ℚ) (N : ℕ)
    (us : ℕ → ℚ) :
    ∀ fuel k, 1 ≤ fuel → budgetFuel M N ≤ fuel + k →
      ∀ n acc, sampleLoopFuel fFn pd M N us fuel n k acc ≠ LoopOut.fuelOut := by
  intro fuel
  induction fuel with
  | zero => intro k h1 hb n acc h; omega
  | succ fuel ih =>
    intro k h1 hb n acc h
    simp only [sampleLoopFuel] at h
    by_cases hn : n < N
    · rw [if_pos hn] at h
      by_cases hk : (k : ℚ) > M * M * (N : ℚ)
      · rw [if_pos hk] at h; simp at h
      · rw [if_neg hk] at h
        have hkQ : (k : ℚ) ≤ M * M * (N : ℚ) := not_lt.mp hk
        have hkZ : (k : ℤ) ≤ ⌊M * M * (N : ℚ)⌋ := Int.le_floor.mpr (by exact_mod_cast hkQ)
        simp only [budgetFuel] at hb
        have hfuel : 1 ≤ fuel := by omega
        have hb2 : budgetFuel M N ≤ fuel + (k + 1) := by simp only [budgetFuel]; omega
        cases hs : callAttr pd.sample (us (2 * k)) with
        | error e2 => rw [hs] at h; dsimp only at h; simp at h
        | ok x =>
          rw [hs] at h
          dsimp only at h
          cases hp : proposal fFn pd M x with
          | error e2 => rw [hp] at h; dsimp only at h; simp at h
          | ok r =>
            rw [hp] at h
            dsimp only at h
            by_cases hu : us (2 * k + 1) ≤ r
            · rw [if_pos hu] at h; exact ih (k + 1) hfuel hb2 _ _ h
            · rw [if_neg hu] at h; exact ih (k + 1) hfuel hb2 _ _ h
    · rw [if_neg hn] at h; simp at h

/-- The final iteration counter of a normally returning loop never gets
past the budget by more than one: `k` is only incremented in iterations
that passed the `k > M * M * N` check. -/
theorem sampleLoopFuel_k_bound (fFn : ℚ → ℚ) (pd : ProposalDistribution) (M : ℚ) (N : ℕ)
    (us : ℕ → ℚ) :
    ∀ (fuel n k : ℕ) (acc samples : List ℚ) (kf : ℕ) (c : Bool),
      (k : ℚ) ≤ M * M * (N : ℚ) + 1 →
      sampleLoopFuel fFn pd M N us fuel n k acc = LoopOut.ok samples kf c →
      (kf : ℚ) ≤ M * M * (N : ℚ) + 1 := by
  intro fuel
  induction fuel with
  | zero => intro n k acc samples kf c hkb h; simp [sampleLoopFuel] at h
  | succ fuel ih =>
    intro n k acc samples kf c hkb h
    simp only [sampleLoopFuel] at h
    by_cases hn : n < N
    · rw [if_pos hn] at h
      by_cases hk : (k : ℚ) > M * M * (N : ℚ)
      · rw [if_pos hk] at h
        simp only [LoopOut.ok.injEq] at h
        obtain ⟨-, hkf, -⟩ := h
        exact hkf ▸ hkb
      · rw [if_neg hk] at h
        have hkb2 : ((k + 1 : ℕ) : ℚ) ≤ M * M * (N : ℚ) + 1 := by
          push_cast
          have := not_lt.mp hk
          linarith
        cases hs : callAttr pd.sample (us (2 * k)) with
        | error e2 => rw [hs] at h; dsimp only at h; simp at h
        | ok x =>
          rw [hs] at h
          dsimp only at h
          cases hp : proposal fFn pd M x with
          | error e2 => rw [hp] at h; dsimp only at h; simp at h
          | ok r =>
            rw [hp] at h
            dsimp only at h
            by_cases hu : us (2 * k + 1) ≤ r
            · rw [if_pos hu] at h; exact ih _ _ _ _ _ _ hkb2 h
            · rw [if_neg hu] at h; exact ih _ _ _ _ _ _ hkb2 h
    · rw [if_neg hn] at h
      simp only [LoopOut.ok.injEq] at h
      obtain ⟨-, hkf, -⟩ := h
      exact hkf ▸ hkb

/-- Loop invariant for the completed path: starting with an accumulator
of accepted values, a completed run (`completed = true`) returns a buffer
of exactly `N` values each of which was accepted. -/
theorem sampleLoopFuel_ok_complete (fFn sFn dFn : ℚ → ℚ) (M : ℚ) (N : ℕ) (us : ℕ → ℚ) :
    ∀ fuel n k acc samples kf,
      n ≤ N → acc.length = n →
      (∀ v ∈ acc, AcceptedFrom sFn dFn fFn M us v) →
      sampleLoopFuel fFn (ProposalDistribution.init (Option.some sFn) (Option.some dFn))
          M N us fuel n k acc = LoopOut.ok samples kf true →
      samples.length = N ∧ ∀ v ∈ samples, AcceptedFrom sFn dFn fFn M us v := by
  intro fuel
  induction fuel with
  | zero => intro n k acc samples kf hnN hlen hacc h; simp [sampleLoopFuel] at h
  | succ fuel ih =>
    intro n k acc samples kf hnN hlen hacc h
    simp only [sampleLoopFuel, ProposalDistribution.init, callAttr, proposal] at h
    by_cases hn : n < N
    · rw [if_pos hn] at h
      by_cases hk : (k : ℚ) > M * M * (N : ℚ)
      · rw [if_pos hk] at h; simp at h
      · rw [if_neg hk] at h
        by_cases hz : M * dFn (sFn (us (2 * k))) = 0
        · rw [if_pos hz] at h; simp at h
        · rw [if_neg hz] at h
          dsimp only at h
          by_cases hu : us (2 * k + 1) ≤ fFn (sFn (us (2 * k))) / (M * dFn (sFn (us (2 * k))))
          · rw [if_pos hu] at h
            refine ih (n + 1) (k + 1) _ samples kf hn (by simp [hlen]) ?_ h
            intro v hv
            rcases List.mem_append.mp hv with hv | hv
            · exact hacc v hv
            · rw [List.mem_singleton] at hv
              subst hv
              exact ⟨k, rfl, hz, hu⟩
          · rw [if_neg hu] at h
            exact ih n (k + 1) acc samples kf hnN hlen hacc h
    · rw [if_neg hn] at h
      simp only [LoopOut.ok.injEq] at h
      obtain ⟨hsam, -, -⟩ := h
      subst hsam
      exact ⟨by omega, hacc⟩

/-- A run that returns with `completed = true` filled the whole buffer:
the accepted-sample list has length exactly `N`, whatever the proposal's
attributes hold. -/
theorem sampleLoopFuel_ok_true_length (fFn : ℚ → ℚ) (pd : ProposalDistribution) (M : ℚ)
    (N : ℕ) (us : ℕ → ℚ) :
    ∀ fuel n k acc samples kf, n ≤ N → acc.length = n →
      sampleLoopFuel fFn pd M N us fuel n k acc = LoopOut.ok samples kf true →
      samples.length = N := by
  intro fuel
  induction fuel with
  | zero => intro n k acc samples kf hnN hlen h; simp [sampleLoopFuel] at h
  | succ fuel ih =>
    intro n k acc samples kf hnN hlen h
    simp only [sampleLoopFuel] at h
    by_cases hn : n < N
    · rw [if_pos hn] at h
      by_cases hk : (k : ℚ) > M * M * (N : ℚ)
      · rw [if_pos hk] at h; simp at h
      · rw [if_neg hk] at h
        cases hs : callAttr pd.sample (us (2 * k)) with
        | error e2 => rw [hs] at h; dsimp only at h; simp at h
        | ok x =>
          rw [hs] at h
          dsimp only at h
          cases hp : proposal fFn pd M x with
          | error e2 => rw [hp] at h; dsimp only at h; simp at h
          | ok r =>
            rw [hp] at h
            dsimp only at h
            by_cases hu : us (2 * k + 1) ≤ r
            · rw [if_pos hu] at h
              exact ih (n + 1) (k + 1) _ samples kf hn (by simp [hlen]) h
            · rw [if_neg hu] at h
              exact ih n (k + 1) acc samples kf hnN hlen h
    · rw [if_neg hn] at h
      simp only [LoopOut.ok.injEq] at h
      obtain ⟨hsam, -, -⟩ := h
      subst hsam
      omega

/-- A completed top-level call returns an accepted-sample list of length
exactly `N`. -/
theorem rejection_sampler_ok_true_length (f g M N : PyVal) (us : ℕ → ℚ)
    (samples : List ℚ) (kf : ℕ)
    (h : rejection_sampler f g M N us = LoopOut.ok samples kf true) :
    samples.length = (intValue N).toNat := by
  cases f with
  | pyFunction fFn =>
    simp only [rejection_sampler] at h
    cases hg : adaptG g with
    | none => rw [hg] at h; simp at h
    | some pd =>
      rw [hg] at h
      dsimp only at h
      split at h
      · split at h
        · simp at h
        · split at h
          · split at h
            · simp at h
            · exact sampleLoopFuel_ok_true_length _ _ _ _ _ _ 0 0 [] samples kf
                (Nat.zero_le _) rfl h
          · simp at h
      · simp at h
  | int n2 => simp [rejection_sampler] at h
  | bool b2 => simp [rejection_sampler] at h
  | float q2 => simp [rejection_sampler] at h
  | str s2 => simp [rejection_sampler] at h
  | builtin fn2 => simp [rejection_sampler] at h
  | propDist pd2 => simp [rejection_sampler] at h
  | rvCont fam2 => simp [rejection_sampler] at h

/-- When the accepted samples fill the whole buffer, the returned array
does not depend on the buffer's initial memory contents. -/
theorem returnedBuffer_eq_of_length (N : ℕ) (mem1 mem2 : ℕ → ℚ) (samples : List ℚ)
    (h : N ≤ samples.length) :
    returnedBuffer N mem1 samples = returnedBuffer N mem2 samples := by
  unfold returnedBuffer
  apply List.map_congr_left
  intro i hi
  rw [List.mem_range] at hi
  have hi2 : i < samples.length := lt_of_lt_of_le hi h
  rw [List.getD_eq_getElem _ _ hi2, List.getD_eq_getElem _ _ hi2]

/-- Every value of `g` that passes the line-64 `isinstance` check is
adapted to some proposal, and every value that fails it is not. -/
theorem adaptG_none_iff (g : PyVal) :
    adaptG g = Option.none ↔ (isProposalDistribution g || isRvContinuous g) = false := by
  cases g <;> simp [adaptG, isProposalDistribution, isRvContinuous]

/-- C1: for valid inputs (a plain-function `f`, a proposal whose `sample`
and `density` attributes hold callables, numeric `M > 0`, integer
`N > 0`), when the call returns with all `N` acceptances made within the
iteration budget (`completed = true`), the returned buffer has length
`N`, and every stored value `x` was produced by `g.sample()` (the
sampling function applied to the shared generator's draw of its
iteration) and passed the test `u <= f(x) / (M * g.density(x))` against
the independent uniform draw `u` of the same iteration, the comparison
being `<=` so that boundary equality counts as acceptance. -/
theorem rejection_sampler_complete_samples_accepted
    (fFn sFn dFn : ℚ → ℚ) (Mq : ℚ) (Nz : ℤ) (us : ℕ → ℚ) (samples : List ℚ) (kf : ℕ)
    (hM : 0 < Mq) (hN : 0 < Nz)
    (hrun : rejection_sampler (PyVal.pyFunction fFn)
        (PyVal.propDist (ProposalDistribution.init (Option.some sFn) (Option.some dFn)))
        (PyVal.float Mq) (PyVal.int Nz) us = LoopOut.ok samples kf true) :
    samples.length = Nz.toNat ∧
      ∀ v ∈ samples, ∃ t, v = sFn (us (2 * t)) ∧ Mq * dFn v ≠ 0 ∧
        us (2 * t + 1) ≤ fFn v / (Mq * dFn v) := by
  simp only [rejection_sampler, adaptG, isinstanceInt, isinstanceFloat, numValue, intValue,
    Bool.false_or, Bool.or_false, if_true] at hrun
  rw [if_neg (not_le.mpr hM), if_neg (not_le.mpr (by exact_mod_cast hN : (0:ℚ) < (Nz:ℚ)))]
    at hrun
  have := sampleLoopFuel_ok_complete fFn sFn dFn Mq Nz.toNat us
    (budgetFuel Mq Nz.toNat) 0 0 [] samples kf (Nat.zero_le _) rfl (by simp) hrun
  exact ⟨this.1, fun v hv => this.2 v hv⟩

theorem rejection_sampler_complete_samples_accepted_witness :
    0 < (1 : ℚ) ∧ 0 < (1 : ℤ) ∧
      ([(0 : ℚ)].length = (1 : ℤ).toNat ∧
        ∀ v ∈ [(0 : ℚ)], ∃ t : ℕ, v = (0 : ℚ) ∧ (1 : ℚ) * 1 ≠ 0 ∧
          (0 : ℚ) ≤ 1 / ((1 : ℚ) * 1)) :=
  ⟨one_pos, one_pos,
    rejection_sampler_complete_samples_accepted (fun _ => 1) (fun u => u) (fun _ => 1)
      1 1 (fun _ => 0) [0] 1 one_pos one_pos
      (by norm_num [rejection_sampler, adaptG, sampleLoopFuel, budgetFuel, proposal, callAttr,
        numValue, intValue, isinstanceInt, isinstanceFloat, ProposalDistribution.init])⟩

/-- C2: the call always terminates.  The loop run by `rejection_sampler`
never exhausts its `budgetFuel`-many allowed iterations (first conjunct:
no input whatsoever can make the embedded loop reach the `fuelOut`
artefact, i.e. the `while` loop always reaches one of its own exits
within the iteration budget, however large `M` is and however low the
acceptance probability is); a loop entry whose counter `k` already
exceeds `M * M * N` before `N` samples are accepted exits immediately,
returning the partial buffer without raising (second conjunct); and the
final iteration counter of any normally returning run started at `k = 0`
stays within one of the budget `M * M * N` (third conjunct). -/
theorem rejection_sampler_terminates_within_budget
    (f g M N : PyVal) (us : ℕ → ℚ) (fFn : ℚ → ℚ) (pd : ProposalDistribution)
    (Mq : ℚ) (Nn : ℕ) (acc : List ℚ) (n k fuel : ℕ) (samples : List ℚ) (kf : ℕ) (c : Bool) :
    rejection_sampler f g M N us ≠ LoopOut.fuelOut ∧
    (n < Nn → (k : ℚ) > Mq * Mq * (Nn : ℚ) →
      sampleLoopFuel fFn pd Mq Nn us (fuel + 1) n k acc = LoopOut.ok acc k false) ∧
    (sampleLoopFuel fFn pd Mq Nn us fuel n 0 acc = LoopOut.ok samples kf c →
      (kf : ℚ) ≤ Mq * Mq * (Nn : ℚ) + 1) := by
  refine ⟨?_, ?_, ?_⟩
  · cases f with
    | pyFunction fFn2 =>
      simp only [rejection_sampler]
      cases hg : adaptG g with
      | none => simp
      | some pd2 =>
        dsimp only
        split
        · split
          · simp
          · split
            · split
              · simp
              · exact sampleLoopFuel_ne_fuelOut _ _ _ _ _ _ 0
                  (by unfold budgetFuel; omega) (by omega) 0 []
            · simp
        · simp
    | int n2 => simp [rejection_sampler]
    | bool b2 => simp [rejection_sampler]
    | float q2 => simp [rejection_sampler]
    | str s2 => simp [rejection_sampler]
    | builtin fn2 => simp [rejection_sampler]
    | propDist pd2 => simp [rejection_sampler]
    | rvCont fam2 => simp [rejection_sampler]
  · intro hn hk
    simp only [sampleLoopFuel]
    rw [if_pos hn, if_pos hk]
  · intro h
    have h0 : (0 : ℚ) ≤ Mq * Mq * (Nn : ℚ) :=
      mul_nonneg (mul_self_nonneg Mq) (Nat.cast_nonneg Nn)
    exact sampleLoopFuel_k_bound fFn pd Mq Nn us fuel n 0 acc samples kf c
      (by push_cast; linarith) h

theorem rejection_sampler_terminates_within_budget_witness :
    (0 : ℕ) < 1 ∧ ((2 : ℕ) : ℚ) > (1 : ℚ) * 1 * ((1 : ℕ) : ℚ) ∧
    sampleLoopFuel (fun _ => 1) (ProposalDistribution.init Option.none Option.none) 1 1
        (fun _ => 0) 1 0 2 [] = LoopOut.ok [] 2 false ∧
    ((2 : ℕ) : ℚ) ≤ (1 : ℚ) * 1 * ((1 : ℕ) : ℚ) + 1 := by
  refine ⟨by norm_num, by norm_num, ?_, ?_⟩
  · exact (rejection_sampler_terminates_within_budget (PyVal.int 0) (PyVal.int 0) (PyVal.int 0)
      (PyVal.int 0) (fun _ => 0) (fun _ => 1)
      (ProposalDistribution.init Option.none Option.none) 1 1 [] 0 2 0 [] 0 false).2.1
      (by norm_num) (by norm_num)
  · exact (rejection_sampler_terminates_within_budget (PyVal.int 0) (PyVal.int 0) (PyVal.int 0)
      (PyVal.int 0) (fun _ => 0) (fun _ => -1)
      (ProposalDistribution.init (Option.some (fun u => u)) (Option.some (fun _ => 1)))
      1 1 [] 0 0 3 [] 2 false).2.2
      (by norm_num [sampleLoopFuel, budgetFuel, proposal, callAttr, ProposalDistribution.init])

/-- C3 counterexample: the claim says no callable `f` is rejected, but
the source checks `isinstance(f, types.FunctionType)`, which is false for
callable objects that are not plain functions (builtins, bound methods,
callable instances).  Here a callable non-`FunctionType` `f` raises the
f-validation `TypeError` even though every other argument is valid. -/
theorem rejection_sampler_callable_f_raises :
    isCallable (PyVal.builtin (fun x => x)) = true ∧
    rejection_sampler (PyVal.builtin (fun x => x))
        (PyVal.propDist (ProposalDistribution.init (Option.some (fun u => u))
          (Option.some (fun _ => 1))))
        (PyVal.int 1) (PyVal.int 1) (fun _ => 0)
      = LoopOut.err (PyErr.typeError "f must be a function") :=
  ⟨rfl, rfl⟩

/-- C3 (amended): `rejection_sampler` raises the f-validation `TypeError`
exactly when `f` is not a `types.FunctionType` instance (a plain `def` or
`lambda` function).  Every plain function passes the `f` validation, but
callables that are not plain functions are rejected too. -/
theorem rejection_sampler_f_requires_functiontype (f g M N : PyVal) (us : ℕ → ℚ) :
    (isFunctionType f = false →
      rejection_sampler f g M N us = LoopOut.err (PyErr.typeError "f must be a function")) ∧
    (isFunctionType f = true →
      rejection_sampler f g M N us ≠ LoopOut.err (PyErr.typeError "f must be a function")) := by
  constructor
  · intro hf
    cases f with
    | pyFunction fn => simp [isFunctionType] at hf
    | int n2 => rfl
    | bool b2 => rfl
    | float q2 => rfl
    | str s2 => rfl
    | builtin fn2 => rfl
    | propDist pd2 => rfl
    | rvCont fam2 => rfl
  · intro hf hbad
    cases f with
    | pyFunction fn =>
      simp only [rejection_sampler] at hbad
      cases hg : adaptG g with
      | none => rw [hg] at hbad; simp at hbad
      | some pd2 =>
        rw [hg] at hbad
        dsimp only at hbad
        split at hbad
        · split at hbad
          · simp at hbad
          · split at hbad
            · split at hbad
              · simp at hbad
              · rcases sampleLoopFuel_err_cases _ _ _ _ _ _ _ _ _ _ hbad with h | h <;>
                  simp at h
            · simp at hbad
        · simp at hbad
    | int n2 => simp [isFunctionType] at hf
    | bool b2 => simp [isFunctionType] at hf
    | float q2 => simp [isFunctionType] at hf
    | str s2 => simp [isFunctionType] at hf
    | builtin fn2 => simp [isFunctionType] at hf
    | propDist pd2 => simp [isFunctionType] at hf
    | rvCont fam2 => simp [isFunctionType] at hf

theorem rejection_sampler_f_requires_functiontype_witness :
    isFunctionType (PyVal.str "f") = false ∧
    rejection_sampler (PyVal.str "f") (PyVal.int 0) (PyVal.int 0) (PyVal.int 0) (fun _ => 0)
      = LoopOut.err (PyErr.typeError "f must be a function") ∧
    isFunctionType (PyVal.pyFunction (fun x => x)) = true ∧
    rejection_sampler (PyVal.pyFunction (fun x => x)) (PyVal.int 0) (PyVal.int 0) (PyVal.int 0)
        (fun _ => 0)
      ≠ LoopOut.err (PyErr.typeError "f must be a function") :=
  ⟨rfl,
   (rejection_sampler_f_requires_functiontype (PyVal.str "f") (PyVal.int 0) (PyVal.int 0)
      (PyVal.int 0) (fun _ => 0)).1 rfl,
   rfl,
   (rejection_sampler_f_requires_functiontype (PyVal.pyFunction (fun x => x)) (PyVal.int 0)
      (PyVal.int 0) (PyVal.int 0) (fun _ => 0)).2 rfl⟩

/-- C4: with a valid `f`, each remaining invalid argument independently
triggers its error, in the source's checking order: a `g` that is neither
a `ProposalDistribution` nor an `rv_continuous` raises `TypeError`; a
non-numeric `M` raises `TypeError`; a numeric `M <= 0` raises
`ValueError`; a non-integer `N` raises `TypeError`; an integer `N <= 0`
raises `ValueError`.  Each conclusion holds for an arbitrary generator
stream `us`, i.e. the error is produced before any sampling work (no
draw of the shared generator is consumed). -/
theorem rejection_sampler_validation_errors (fFn : ℚ → ℚ) (g M N : PyVal) :
    ((isProposalDistribution g || isRvContinuous g) = false →
      ∀ us : ℕ → ℚ, rejection_sampler (PyVal.pyFunction fFn) g M N us
        = LoopOut.err (PyErr.typeError
            "g must be a continuous scipy distribution or a .ProposalDistribution")) ∧
    ((isProposalDistribution g || isRvContinuous g) = true →
      ((isinstanceInt M || isinstanceFloat M) = false →
        ∀ us : ℕ → ℚ, rejection_sampler (PyVal.pyFunction fFn) g M N us
          = LoopOut.err (PyErr.typeError
              "M must be an integer or float to scale samples from g by")) ∧
      ((isinstanceInt M || isinstanceFloat M) = true → numValue M ≤ 0 →
        ∀ us : ℕ → ℚ, rejection_sampler (PyVal.pyFunction fFn) g M N us
          = LoopOut.err (PyErr.valueError "M must be positive")) ∧
      ((isinstanceInt M || isinstanceFloat M) = true → 0 < numValue M →
          isinstanceInt N = false →
        ∀ us : ℕ → ℚ, rejection_sampler (PyVal.pyFunction fFn) g M N us
          = LoopOut.err (PyErr.typeError "N must be an integer")) ∧
      ((isinstanceInt M || isinstanceFloat M) = true → 0 < numValue M →
          isinstanceInt N = true → numValue N ≤ 0 →
        ∀ us : ℕ → ℚ, rejection_sampler (PyVal.pyFunction fFn) g M N us
          = LoopOut.err (PyErr.valueError "N must be positive"))) := by
  constructor
  · intro hg us
    simp only [rejection_sampler, (adaptG_none_iff g).mpr hg]
  · intro hg
    obtain ⟨pd, hpd⟩ : ∃ pd, adaptG g = Option.some pd := by
      cases hg2 : adaptG g with
      | none => rw [(adaptG_none_iff g).mp hg2] at hg; cases hg
      | some pd => exact ⟨pd, rfl⟩
    refine ⟨?_, ?_, ?_, ?_⟩
    · intro hM us
      simp only [rejection_sampler, hpd]
      rw [if_neg (by simp [hM])]
    · intro hM hMv us
      simp only [rejection_sampler, hpd]
      rw [if_pos (by simp [hM]), if_pos hMv]
    · intro hM hMv hN us
      simp only [rejection_sampler, hpd]
      rw [if_pos (by simp [hM]), if_neg (not_le.mpr hMv), if_neg (by simp [hN])]
    · intro hM hMv hN hNv us
      simp only [rejection_sampler, hpd]
      rw [if_pos (by simp [hM]), if_neg (not_le.mpr hMv), if_pos (by simp [hN]), if_pos hNv]

theorem rejection_sampler_validation_errors_witness :
    rejection_sampler (PyVal.pyFunction (fun x => x)) (PyVal.int 7) (PyVal.int 1) (PyVal.int 1)
        (fun _ => 0)
      = LoopOut.err (PyErr.typeError
          "g must be a continuous scipy distribution or a .ProposalDistribution") ∧
    rejection_sampler (PyVal.pyFunction (fun x => x))
        (PyVal.propDist (ProposalDistribution.init Option.none Option.none))
        (PyVal.str "5") (PyVal.int 1) (fun _ => 0)
      = LoopOut.err (PyErr.typeError
          "M must be an integer or float to scale samples from g by") ∧
    rejection_sampler (PyVal.pyFunction (fun x => x))
        (PyVal.propDist (ProposalDistribution.init Option.none Option.none))
        (PyVal.int 0) (PyVal.int 1) (fun _ => 0)
      = LoopOut.err (PyErr.valueError "M must be positive") ∧
    rejection_sampler (PyVal.pyFunction (fun x => x))
        (PyVal.propDist (ProposalDistribution.init Option.none Option.none))
        (PyVal.int 1) (PyVal.str "0") (fun _ => 0)
      = LoopOut.err (PyErr.typeError "N must be an integer") ∧
    rejection_sampler (PyVal.pyFunction (fun x => x))
        (PyVal.propDist (ProposalDistribution.init Option.none Option.none))
        (PyVal.int 1) (PyVal.int 0) (fun _ => 0)
      = LoopOut.err (PyErr.valueError "N must be positive") := by
  refine ⟨?_, ?_, ?_, ?_, ?_⟩
  · exact (rejection_sampler_validation_errors (fun x => x) (PyVal.int 7) (PyVal.int 1)
      (PyVal.int 1)).1 rfl (fun _ => 0)
  · exact ((rejection_sampler_validation_errors (fun x => x)
      (PyVal.propDist (ProposalDistribution.init Option.none Option.none))
      (PyVal.str "5") (PyVal.int 1)).2 rfl).1 rfl (fun _ => 0)
  · exact ((rejection_sampler_validation_errors (fun x => x)
      (PyVal.propDist (ProposalDistribution.init Option.none Option.none))
      (PyVal.int 0) (PyVal.int 1)).2 rfl).2.1 rfl (by norm_num [numValue]) (fun _ => 0)
  · exact ((rejection_sampler_validation_errors (fun x => x)
      (PyVal.propDist (ProposalDistribution.init Option.none Option.none))
      (PyVal.int 1) (PyVal.str "0")).2 rfl).2.2.1 rfl (by norm_num [numValue]) rfl (fun _ => 0)
  · exact ((rejection_sampler_validation_errors (fun x => x)
      (PyVal.propDist (ProposalDistribution.init Option.none Option.none))
      (PyVal.int 1) (PyVal.int 0)).2 rfl).2.2.2 rfl (by norm_num [numValue]) rfl
      (by norm_num [numValue]) (fun _ => 0)
/-- C5: constructing a proposal directly from a standard distribution's
sampler and density functions (`ProposalDistribution(dist.rvs, dist.pdf)`)
and constructing it via the `from_scipy` adapter from the same underlying
distribution give equal density results at every evaluation point; and
`from_scipy` returns the abstraction instance itself (the call's value is
the instance with the two attributes bound), enabling fluent construction
such as `ProposalDistribution().from_scipy(dist)`. -/
theorem proposalDistribution_direct_eq_from_scipy
    (fam : ScipyFamily) (args : List ℚ) (x : ℚ) (self : ProposalDistribution) :
    callAttr (ProposalDistribution.init (Option.some (fam.call args).rvs)
        (Option.some (fam.call args).pdf)).density x
      = callAttr ((ProposalDistribution.init Option.none Option.none).from_scipy fam
          args).density x ∧
    self.from_scipy fam args
      = ProposalDistribution.init (Option.some (fam.call args).rvs)
          (Option.some (fam.call args).pdf) :=
  ⟨rfl, rfl⟩

/-- C6: the acceptance-ratio computation `f(x) / (M * g.density(x))` is
unguarded.  First conjunct: in any in-budget loop iteration whose sampled
point has zero scaled proposal density, the division raises
`ZeroDivisionError`, which nothing in `rejection_sampler` catches (the
loop's outcome is the error itself).  Second conjunct: the branch is
reachable from the public entry point, shown at a concrete valid input
whose proposal density is zero at the sampled point. -/
theorem division_by_zero_reachable_unguarded
    (fFn sFn dFn : ℚ → ℚ) (Mq : ℚ) (Nn n k fuel : ℕ) (acc : List ℚ) (us : ℕ → ℚ)
    (hn : n < Nn) (hk : ¬ (k : ℚ) > Mq * Mq * (Nn : ℚ))
    (hz : Mq * dFn (sFn (us (2 * k))) = 0) :
    sampleLoopFuel fFn (ProposalDistribution.init (Option.some sFn) (Option.some dFn))
        Mq Nn us (fuel + 1) n k acc = LoopOut.err PyErr.zeroDivisionError ∧
    rejection_sampler (PyVal.pyFunction (fun _ => 1))
        (PyVal.propDist (ProposalDistribution.init (Option.some (fun u => u))
          (Option.some (fun _ => 0))))
        (PyVal.float 1) (PyVal.int 1) (fun _ => 0)
      = LoopOut.err PyErr.zeroDivisionError := by
  constructor
  · simp only [sampleLoopFuel, ProposalDistribution.init, callAttr, proposal]
    rw [if_pos hn, if_neg hk, if_pos hz]
  · norm_num [rejection_sampler, adaptG, sampleLoopFuel, budgetFuel, proposal, callAttr,
      numValue, intValue, isinstanceInt, isinstanceFloat, ProposalDistribution.init]

theorem division_by_zero_reachable_unguarded_witness :
    (0 : ℕ) < 1 ∧ ¬ ((0 : ℕ) : ℚ) > (1 : ℚ) * 1 * ((1 : ℕ) : ℚ) ∧
    (1 : ℚ) * 0 = 0 ∧
    sampleLoopFuel (fun _ => 1) (ProposalDistribution.init (Option.some (fun u => u))
        (Option.some (fun _ => 0))) 1 1 (fun _ => 0) 1 0 0 []
      = LoopOut.err PyErr.zeroDivisionError := by
  refine ⟨by norm_num, by norm_num, by norm_num, ?_⟩
  exact (division_by_zero_reachable_unguarded (fun _ => 1) (fun u => u) (fun _ => 0)
    1 1 0 0 0 [] (fun _ => 0) (by norm_num) (by norm_num) (by norm_num)).1

/-- C7 counterexample: two calls with identical arguments and an
identically reseeded shared generator (the very same uniform-draw
stream) but different initial contents of the `empty(N)` buffer return
different arrays, via the reachable budget early exit: the uninitialized
tail of the returned length-`N` buffer is not determined by the
arguments and the generator state, so the outputs are not identical and
the output does not depend only on the arguments and that state. -/
theorem rejection_sampler_array_memory_dependent :
    rejection_sampler_array (PyVal.pyFunction (fun _ => -1))
        (PyVal.propDist (ProposalDistribution.init (Option.some (fun u => u))
          (Option.some (fun _ => 1))))
        (PyVal.int 1) (PyVal.int 1) (fun _ => 1) (fun _ => 0)
      = LoopOut.ok [0] 2 false ∧
    rejection_sampler_array (PyVal.pyFunction (fun _ => -1))
        (PyVal.propDist (ProposalDistribution.init (Option.some (fun u => u))
          (Option.some (fun _ => 1))))
        (PyVal.int 1) (PyVal.int 1) (fun _ => 1) (fun _ => 1)
      = LoopOut.ok [1] 2 false ∧
    (LoopOut.ok [(0 : ℚ)] 2 false = LoopOut.ok [(1 : ℚ)] 2 false) = False := by
  refine ⟨?_, ?_, ?_⟩
  · norm_num [rejection_sampler_array, rejection_sampler, returnedBuffer, adaptG,
      sampleLoopFuel, budgetFuel, proposal, callAttr, numValue, intValue, isinstanceInt,
      isinstanceFloat, ProposalDistribution.init, List.range_succ]
  · norm_num [rejection_sampler_array, rejection_sampler, returnedBuffer, adaptG,
      sampleLoopFuel, budgetFuel, proposal, callAttr, numValue, intValue, isinstanceInt,
      isinstanceFloat, ProposalDistribution.init, List.range_succ]
  · simp

/-- C7 (amended): `rejection_sampler` is deterministic in the
pseudorandom generator state up to the uninitialized buffer tail: two
calls with identical arguments and the shared generator reseeded
identically produce identical loop outcomes (the same accepted-sample
prefix, final iteration count, completion flag, or the same raised
exception); whenever the run completes with all `N` acceptances within
the budget, the full returned length-`N` arrays are also identical,
regardless of the buffers' initial memory contents; and on the budget
early exit the returned array is the accepted prefix padded with the
uninitialized contents of the call's own `empty(N)` allocation, which is
the one output component not determined by the arguments and the
generator state. -/
theorem rejection_sampler_deterministic_modulo_buffer
    (f g M N : PyVal) (us1 us2 mem1 mem2 : ℕ → ℚ) (samples : List ℚ) (kf : ℕ)
    (h : us1 = us2) :
    rejection_sampler f g M N us1 = rejection_sampler f g M N us2 ∧
    (rejection_sampler f g M N us1 = LoopOut.ok samples kf true →
      rejection_sampler_array f g M N us1 mem1 = rejection_sampler_array f g M N us2 mem2) ∧
    (rejection_sampler f g M N us1 = LoopOut.ok samples kf false →
      rejection_sampler_array f g M N us1 mem1
        = LoopOut.ok (returnedBuffer (intValue N).toNat mem1 samples) kf false) := by
  subst h
  refine ⟨rfl, ?_, ?_⟩
  · intro hok
    have hlen := rejection_sampler_ok_true_length f g M N us1 samples kf hok
    unfold rejection_sampler_array
    rw [hok]
    dsimp only
    rw [returnedBuffer_eq_of_length _ mem1 mem2 samples (le_of_eq hlen.symm)]
  · intro hok
    unfold rejection_sampler_array
    rw [hok]

theorem rejection_sampler_deterministic_modulo_buffer_witness :
    rejection_sampler (PyVal.pyFunction (fun _ => 1))
        (PyVal.propDist (ProposalDistribution.init (Option.some (fun u => u))
          (Option.some (fun _ => 1))))
        (PyVal.float 1) (PyVal.int 1) (fun _ => 0)
      = rejection_sampler (PyVal.pyFunction (fun _ => 1))
        (PyVal.propDist (ProposalDistribution.init (Option.some (fun u => u))
          (Option.some (fun _ => 1))))
        (PyVal.float 1) (PyVal.int 1) (fun n => 0 * (n : ℚ)) ∧
    rejection_sampler_array (PyVal.pyFunction (fun _ => 1))
        (PyVal.propDist (ProposalDistribution.init (Option.some (fun u => u))
          (Option.some (fun _ => 1))))
        (PyVal.float 1) (PyVal.int 1) (fun _ => 0) (fun _ => 5)
      = rejection_sampler_array (PyVal.pyFunction (fun _ => 1))
        (PyVal.propDist (ProposalDistribution.init (Option.some (fun u => u))
          (Option.some (fun _ => 1))))
        (PyVal.float 1) (PyVal.int 1) (fun n => 0 * (n : ℚ)) (fun _ => 7) := by
  constructor
  · exact (rejection_sampler_deterministic_modulo_buffer (PyVal.pyFunction (fun _ => 1))
      (PyVal.propDist (ProposalDistribution.init (Option.some (fun u => u))
        (Option.some (fun _ => 1))))
      (PyVal.float 1) (PyVal.int 1) (fun _ => 0) (fun n => 0 * (n : ℚ))
      (fun _ => 5) (fun _ => 7) [0] 1 (by funext n; ring)).1
  · exact (rejection_sampler_deterministic_modulo_buffer (PyVal.pyFunction (fun _ => 1))
      (PyVal.propDist (ProposalDistribution.init (Option.some (fun u => u))
        (Option.some (fun _ => 1))))
      (PyVal.float 1) (PyVal.int 1) (fun _ => 0) (fun n => 0 * (n : ℚ))
      (fun _ => 5) (fun _ => 7) [0] 1 (by funext n; ring)).2.1
      (by norm_num [rejection_sampler, adaptG, sampleLoopFuel, budgetFuel, proposal, callAttr,
        numValue, intValue, isinstanceInt, isinstanceFloat, ProposalDistribution.init])

/-- C8: boolean arguments pass the numeric validation: with `M = True`
and `N = True`, the `isinstance(-, int)` check succeeds (`bool` is a
subtype of `int`), `True` has numeric value 1 > 0, and the call never
returns any of the `M`/`N` validation errors: any exception it can
return originates inside the loop (a `None` attribute call or the
unguarded division), never from the `M`/`N` checks. -/
theorem rejection_sampler_bool_arguments_pass (fFn : ℚ → ℚ) (pd : ProposalDistribution)
    (us : ℕ → ℚ) :
    isinstanceInt (PyVal.bool true) = true ∧ 0 < numValue (PyVal.bool true) ∧
    ∀ e, rejection_sampler (PyVal.pyFunction fFn) (PyVal.propDist pd)
        (PyVal.bool true) (PyVal.bool true) us = LoopOut.err e →
      e = PyErr.typeError "NoneType object is not callable" ∨ e = PyErr.zeroDivisionError := by
  refine ⟨rfl, by norm_num [numValue], ?_⟩
  intro e he
  simp only [rejection_sampler, adaptG, isinstanceInt, isinstanceFloat, numValue, intValue,
    Bool.true_or, Bool.or_true, if_true] at he
  rw [if_neg (by norm_num)] at he
  exact sampleLoopFuel_err_cases _ _ _ _ _ _ _ _ _ _ he

theorem rejection_sampler_bool_arguments_pass_witness :
    isinstanceInt (PyVal.bool true) = true ∧ 0 < numValue (PyVal.bool true) ∧
    (PyErr.typeError "NoneType object is not callable"
        = PyErr.typeError "NoneType object is not callable"
      ∨ PyErr.typeError "NoneType object is not callable" = PyErr.zeroDivisionError) := by
  refine ⟨rfl, by norm_num [numValue], ?_⟩
  exact (rejection_sampler_bool_arguments_pass (fun _ => 1)
    (ProposalDistribution.init Option.none Option.none) (fun _ => 0)).2.2
    (PyErr.typeError "NoneType object is not callable")
    (by norm_num [rejection_sampler, adaptG, sampleLoopFuel, budgetFuel, proposal, callAttr,
      numValue, intValue, isinstanceInt, isinstanceFloat, ProposalDistribution.init])

/-- C9: a default-constructed `ProposalDistribution()` stores `None` in
the instance attributes `sample` and `density`; those instance attributes
shadow the identically named class-level method definitions (attribute
lookup resolves both names to the instance `__dict__`, so the method
bodies are never executed); and invoking `sample` or `density` on such an
instance fails with a `TypeError` because `None` is not callable. -/
theorem proposalDistribution_default_none_shadowing :
    (ProposalDistribution.init Option.none Option.none).sample = Option.none ∧
    (ProposalDistribution.init Option.none Option.none).density = Option.none ∧
    "sample" ∈ classAttrs ∧ "density" ∈ classAttrs ∧
    attributeSource "sample" = AttrSource.fromInstance ∧
    attributeSource "density" = AttrSource.fromInstance ∧
    ∀ x : ℚ,
      callAttr (ProposalDistribution.init Option.none Option.none).sample x
          = Except.error (PyErr.typeError "NoneType object is not callable") ∧
      callAttr (ProposalDistribution.init Option.none Option.none).density x
          = Except.error (PyErr.typeError "NoneType object is not callable") := by
  refine ⟨rfl, rfl, by simp [classAttrs], by simp [classAttrs], ?_, ?_, fun x => ⟨rfl, rfl⟩⟩
  · simp [attributeSource, instanceAttrs]
  · simp [attributeSource, instanceAttrs]

/-- C10: when `g` is a scipy continuous-distribution family, the
auto-adaptation calls `from_scipy` with no distribution parameters, so
the resulting proposal's `sample` and `density` are the family frozen at
its default parameters (`loc=0, scale=1`; a normal family becomes the
standard normal), regardless of any parameterization the caller
intended; consequently the whole call behaves exactly as if the
default-frozen proposal had been passed. -/
theorem rejection_sampler_scipy_default_params
    (fam : ScipyFamily) (f M N : PyVal) (us : ℕ → ℚ) :
    adaptG (PyVal.rvCont fam)
      = Option.some ((ProposalDistribution.init Option.none Option.none).from_scipy fam []) ∧
    ((ProposalDistribution.init Option.none Option.none).from_scipy fam []).sample
      = Option.some (fam.rvsAt fam.defaultLoc fam.defaultScale) ∧
    ((ProposalDistribution.init Option.none Option.none).from_scipy fam []).density
      = Option.some (fam.pdfAt fam.defaultLoc fam.defaultScale) ∧
    rejection_sampler f (PyVal.rvCont fam) M N us
      = rejection_sampler f (PyVal.propDist
          ((ProposalDistribution.init Option.none Option.none).from_scipy fam [])) M N us := by
  refine ⟨rfl, rfl, rfl, ?_⟩
  cases f <;> rfl

end Samplers
